import Mathlib

/-!
Shallow embedding of the RAG chatbot (src/app.py): the `dialogues` data
model, vector search (`search_similar_dialogues`), answer generation
(`generate_response`), client initialization (`get_groq_client`), the
per-question orchestration block of `main`, and the session transcript
(`st.session_state.messages`), together with theorems checking the
specified properties.
-/

namespace RagApp

/-- A row of the `dialogues` table: `(id, dialogue_id, contenu, embedding)`.
Embeddings are modelled as rational vectors (exact arithmetic stands in for
the store's floats). -/
structure DialogueRecord where
  id : Nat
  dialogue_id : String
  contenu : String
  embedding : List ℚ
deriving DecidableEq

/-- One tuple returned by `search_similar_dialogues`:
`(id, dialogue_id, contenu, similarity)` as selected by the SQL query. -/
structure SearchResult where
  doc_id : Nat
  dialogue_id : String
  content : String
  similarity : ℚ
deriving DecidableEq

/-- Dot product of two vectors (zip truncates to the shorter length). -/
def dot (u v : List ℚ) : ℚ := (List.zipWith (fun a b => a * b) u v).sum

/-- Squared Euclidean norm. -/
def sqNorm (u : List ℚ) : ℚ := dot u u

/-- pgvector cosine distance `u <=> v` in the unit-norm form relevant here:
the query embedding is produced with `normalize_embeddings=True` and the
stored embeddings are unit vectors as well, and for unit vectors the cosine
distance `1 - dot u v / (‖u‖ * ‖v‖)` is `1 - dot u v`. -/
def cosineDistance (u v : List ℚ) : ℚ := 1 - dot u v

/-- The `similarity` column of the SQL query: `1 - (embedding <=> query)`. -/
def similarity (q e : List ℚ) : ℚ := 1 - cosineDistance q e

theorem similarity_eq_dot (q e : List ℚ) : similarity q e = dot q e := by
  simp [similarity, cosineDistance]

theorem dot_nil_right (u : List ℚ) : dot u [] = 0 := by
  cases u <;> rfl

theorem dot_cons_cons (a b : ℚ) (u v : List ℚ) :
    dot (a :: u) (b :: v) = a * b + dot u v := rfl

theorem sqNorm_nonneg (u : List ℚ) : 0 ≤ sqNorm u := by
  induction u with
  | nil => simp [sqNorm, dot]
  | cons a u ih =>
    rw [sqNorm, dot_cons_cons] at *
    nlinarith [sq_nonneg a]

/-- Two-variable step of the Cauchy–Schwarz induction. -/
theorem cs_step (a b su sv d : ℚ) (hsu : 0 ≤ su) (hsv : 0 ≤ sv)
    (h : d ^ 2 ≤ su * sv) : (a * b + d) ^ 2 ≤ (a ^ 2 + su) * (b ^ 2 + sv) := by
  rcases le_or_lt (a * b * d) 0 with hc | hc
  · nlinarith [mul_nonneg (sq_nonneg a) hsv, mul_nonneg (sq_nonneg b) hsu]
  · have hS : 0 ≤ a ^ 2 * sv + b ^ 2 * su :=
      add_nonneg (mul_nonneg (sq_nonneg a) hsv) (mul_nonneg (sq_nonneg b) hsu)
    have hSsq : (2 * (a * b * d)) ^ 2 ≤ (a ^ 2 * sv + b ^ 2 * su) ^ 2 := by
      nlinarith [sq_nonneg (a ^ 2 * sv - b ^ 2 * su),
        mul_nonneg (mul_nonneg (sq_nonneg a) (sq_nonneg b)) (sub_nonneg.mpr h)]
    have hT : 2 * (a * b * d) ≤ a ^ 2 * sv + b ^ 2 * su := by
      nlinarith [hS, hSsq, hc]
    nlinarith [hT, h]

theorem sqNorm_cons (a : ℚ) (u : List ℚ) : sqNorm (a :: u) = a ^ 2 + sqNorm u := by
  rw [sqNorm, dot_cons_cons, ← sqNorm]
  ring

/-- Cauchy–Schwarz for the truncating list dot product. -/
theorem dot_sq_le (u : List ℚ) : ∀ v : List ℚ, (dot u v) ^ 2 ≤ sqNorm u * sqNorm v := by
  induction u with
  | nil =>
    intro v
    simp [dot, sqNorm]
  | cons a u ih =>
    intro v
    cases v with
    | nil =>
      have h0 : sqNorm ([] : List ℚ) = 0 := rfl
      rw [dot_nil_right, h0, mul_zero]
      simp
    | cons b v =>
      rw [dot_cons_cons, sqNorm_cons, sqNorm_cons]
      exact cs_step a b (sqNorm u) (sqNorm v) (dot u v)
        (sqNorm_nonneg u) (sqNorm_nonneg v) (ih v)

/-- For unit vectors the dot product lies in `[-1, 1]`. -/
theorem dot_mem_Icc_of_unit {q e : List ℚ} (hq : sqNorm q = 1) (he : sqNorm e = 1) :
    -1 ≤ dot q e ∧ dot q e ≤ 1 := by
  have h := dot_sq_le q e
  rw [hq, he, mul_one] at h
  constructor <;> nlinarith [h]

/-- Projection of a table row to a result row for query vector `q`. -/
def rowOf (q : List ℚ) (r : DialogueRecord) : SearchResult :=
  ⟨r.id, r.dialogue_id, r.contenu, similarity q r.embedding⟩

/-- The order produced by `ORDER BY similarity DESC`. -/
def simGE (a b : SearchResult) : Prop := b.similarity ≤ a.similarity

instance : DecidableRel simGE := fun a b =>
  inferInstanceAs (Decidable (b.similarity ≤ a.similarity))

instance : IsTotal SearchResult simGE :=
  ⟨fun a b => le_total b.similarity a.similarity⟩

instance : IsTrans SearchResult simGE :=
  ⟨fun _ _ _ h1 h2 => le_trans h2 h1⟩

/-- Semantics of the SQL statement
`SELECT id, dialogue_id, contenu, 1 - (embedding <=> q) AS similarity
 FROM dialogues ORDER BY similarity DESC LIMIT top_k`:
score every stored row, sort by similarity descending, keep the first
`top_k`. -/
def sqlTopK (store : List DialogueRecord) (q : List ℚ) (top_k : Nat) :
    List SearchResult :=
  (List.insertionSort simGE (store.map (rowOf q))).take top_k

def searchErrMsg (e : String) : String := "Erreur lors de la recherche: " ++ e

/-- `search_similar_dialogues(query, model, conn, top_k)`.  The `try` block
covers both the embedding call (`model.encode`) and the SQL query; any
exception is reported via `st.error` and the function returns `[]`.
`embedOutcome` is the outcome of `model.encode` (already as a vector),
`dbErr` is `some e` when the cursor raises `e`.  The pair returned is
(value of the function, messages reported via `st.error`). -/
def search_similar_dialogues (embedOutcome : Except String (List ℚ))
    (store : List DialogueRecord) (dbErr : Option String) (top_k : Nat) :
    List SearchResult × List String :=
  match embedOutcome with
  | Except.error e => ([], [searchErrMsg e])
  | Except.ok q =>
    match dbErr with
    | some e => ([], [searchErrMsg e])
    | none => (sqlTopK store q top_k, [])

def genErrMsg (e : String) : String := "Erreur lors de la génération: " ++ e

/-- The instruction prompt built by `generate_response` (f-string with the
context and the question spliced in verbatim). -/
def build_prompt (question context : String) : String :=
  "Tu es un assistant intelligent qui répond aux questions en te basant sur des dialogues de conversations téléphoniques.\n\nContexte (extraits de dialogues):\n" ++
    context ++ "\n\nQuestion: " ++ question ++
    "\n\nRéponds de manière claire et concise en français, en t\x27appuyant sur les informations contenues dans les dialogues. Si les dialogues ne contiennent pas d\x27information pertinente, dis-le clairement."

/-- `generate_response(question, context, client, ...)`: builds the prompt and
calls the chat-completion API; on success it returns the completion content,
and any exception is caught and turned into the error string that the
function returns.  `api` is the provider call, mapping the sent prompt to
its outcome. -/
def generate_response (question context : String)
    (api : String → Except String String) : String :=
  match api (build_prompt question context) with
  | Except.ok content => content
  | Except.error e => genErrMsg e

/-- One entry of `st.session_state.messages`.  A user turn is the dict
`{"role": "user", "content": question}` (no `sources` key, modelled as
`none`); an assistant turn always carries a `sources` key. -/
structure Turn where
  role : String
  content : String
  sources : Option (List SearchResult)
deriving DecidableEq

/-- Outcomes of the external calls made while handling one question:
the embedding call, the store contents, whether the SQL query raises, and
the generation provider. -/
structure Env where
  embedOutcome : Except String (List ℚ)
  store : List DialogueRecord
  dbErr : Option String
  api : String → Except String String

/-- The fixed answer of the zero-results branch (line 216 of app.py). -/
def noResultsMsg : String :=
  "Désolé, je n\x27ai pas trouvé de dialogues pertinents pour répondre à votre question."

/-- Line 220: `context = "\n\n".join(d[2] for d in similar_dialogues)`;
Python `sep.join` semantics. -/
def joinSep (sep : String) : List String → String
  | [] => ""
  | [x] => x
  | x :: xs => x ++ sep ++ joinSep sep xs

/-- The context string passed to generation. -/
def buildContext (rs : List SearchResult) : String :=
  joinSep "\n\n" (rs.map SearchResult.content)

/-- Result of handling one `st.chat_input` question: the new transcript, the
visible answer, the sources attached to the assistant turn, how many
generation calls were made, and the error messages reported via `st.error`. -/
structure QueryOutcome where
  messages : List Turn
  response : String
  sources : List SearchResult
  genCalls : Nat
  reported : List String
deriving DecidableEq

/-- The `if question := st.chat_input(...)` block of `main` (lines 197-240):
append the user turn, run `search_similar_dialogues` (its own `try` already
returns `[]` on any exception, so the outer `try` of lines 209-213 never
fires), then either short-circuit to `noResultsMsg` or call
`generate_response`, and append the assistant turn whose `sources` key is
`similar_dialogues if similar_dialogues else []`. -/
def handle_question (env : Env) (question : String) (top_k : Nat)
    (messages : List Turn) : QueryOutcome :=
  let sr := search_similar_dialogues env.embedOutcome env.store env.dbErr top_k
  let similar := sr.1
  let afterUser := messages ++ [⟨"user", question, none⟩]
  if similar = [] then
    { messages := afterUser ++ [⟨"assistant", noResultsMsg, some []⟩]
      response := noResultsMsg
      sources := []
      genCalls := 0
      reported := sr.2 }
  else
    let response := generate_response question (buildContext similar) env.api
    { messages := afterUser ++ [⟨"assistant", response, some similar⟩]
      response := response
      sources := similar
      genCalls := 1
      reported := sr.2 }

/-- One handled question: the environment of its external calls, the text
typed by the user, and the sidebar `top_k`. -/
structure QueryInput where
  env : Env
  question : String
  top_k : Nat

/-- A session: starting from the empty `st.session_state.messages`, handle
each question in order, threading the transcript. -/
def run_session (qs : List QueryInput) : List Turn :=
  qs.foldl (fun msgs qi => (handle_question qi.env qi.question qi.top_k msgs).messages) []

/-- The clear-history button action (line 245):
`st.session_state.messages = []`. -/
def clear_history (_messages : List Turn) : List Turn := []

/-- Lines 193 and 232: `text[:300] + "..." if len(text) > 300 else text`,
on the code-point sequence of the stored source text. -/
def truncate_preview (text : List Char) : List Char :=
  if 300 < text.length then text.take 300 ++ ['.', '.', '.'] else text

/-- The Groq client object, holding the key it was constructed with. -/
structure GroqClient where
  api_key : String
deriving DecidableEq

def apiKeyErrMsg : String := "GROQ_API_KEY non trouvée dans le fichier .env"

/-- `get_groq_client()`: reads `GROQ_API_KEY` from the environment (`none`
when unset); `if not api_key` also catches the empty string.  Returns the
client (or `None`) together with the messages reported via `st.error`. -/
def get_groq_client (api_key : Option String) :
    Option GroqClient × List String :=
  match api_key with
  | none => (none, [apiKeyErrMsg])
  | some k => if k = "" then (none, [apiKeyErrMsg]) else (some ⟨k⟩, [])

/-- Lines 163-165 of `main`: `if conn is None or client is None: ...; return`.
`true` means main goes on to the chat loop and can handle questions. -/
def system_serves (conn : Option Unit) (client : Option GroqClient) : Bool :=
  conn.isSome && client.isSome

/-- The transcript shape claimed for reachable sessions: turns come in
`user`/`assistant` pairs, the user turn of each pair has no `sources` key
and the assistant turn has one. -/
def wellFormed : List Turn → Prop
  | [] => True
  | [_] => False
  | u :: a :: rest =>
    u.role = "user" ∧ u.sources = none ∧
      a.role = "assistant" ∧ a.sources.isSome = true ∧ wellFormed rest

/-! ### Helper lemmas -/

theorem sqlTopK_length_le (store : List DialogueRecord) (q : List ℚ) (k : Nat) :
    (sqlTopK store q k).length ≤ k :=
  List.length_take_le k _

theorem sqlTopK_sorted (store : List DialogueRecord) (q : List ℚ) (k : Nat) :
    List.Sorted simGE (sqlTopK store q k) :=
  List.Pairwise.sublist (List.take_sublist k _)
    (List.sorted_insertionSort simGE (store.map (rowOf q)))

theorem sqlTopK_mem {store : List DialogueRecord} {q : List ℚ} {k : Nat}
    {s : SearchResult} (hs : s ∈ sqlTopK store q k) :
    ∃ r ∈ store, s = rowOf q r := by
  have h1 : s ∈ List.insertionSort simGE (store.map (rowOf q)) :=
    List.mem_of_mem_take hs
  have h2 : s ∈ store.map (rowOf q) := by
    simpa using h1
  obtain ⟨r, hr, hrs⟩ := List.mem_map.mp h2
  exact ⟨r, hr, hrs.symm⟩

theorem handle_question_messages (env : Env) (q : String) (k : Nat)
    (msgs : List Turn) :
    ∃ resp srcs, (handle_question env q k msgs).messages =
      msgs ++ [⟨"user", q, none⟩, ⟨"assistant", resp, some srcs⟩] := by
  by_cases h : (search_similar_dialogues env.embedOutcome env.store env.dbErr k).1 = []
  · exact ⟨noResultsMsg, [], by simp [handle_question, h]⟩
  · refine ⟨generate_response q
      (buildContext (search_similar_dialogues env.embedOutcome env.store env.dbErr k).1)
      env.api,
      (search_similar_dialogues env.embedOutcome env.store env.dbErr k).1, ?_⟩
    simp [handle_question, h]

theorem wellFormed_append_pair (q r : String) (s : List SearchResult) :
    ∀ l : List Turn, wellFormed l →
      wellFormed (l ++ [⟨"user", q, none⟩, ⟨"assistant", r, some s⟩])
  | [], _ => by simp [wellFormed]
  | [_], h => by simp [wellFormed] at h
  | t1 :: t2 :: rest, h => by
    simp only [wellFormed, List.cons_append] at h ⊢
    exact ⟨h.1, h.2.1, h.2.2.1, h.2.2.2.1,
      wellFormed_append_pair q r s rest h.2.2.2.2⟩

theorem wellFormed_length_even : ∀ l : List Turn, wellFormed l → l.length % 2 = 0
  | [], _ => rfl
  | [_], h => by simp [wellFormed] at h
  | _ :: _ :: rest, h => by
    have hrest : wellFormed rest := by
      simp only [wellFormed] at h
      exact h.2.2.2.2
    have ih := wellFormed_length_even rest hrest
    simp only [List.length_cons]
    omega

/-! ### Claims -/

/-- Claim C1: for every query whose search step returns zero results, the
orchestrator skips the generation call entirely (`genCalls = 0`, for every
provider) and returns the fixed no-results message with an empty sources
sequence, and the assistant turn appended to the transcript carries that
fixed message and an empty sources list. -/
theorem C1_no_results_short_circuit (env : Env) (q : String) (k : Nat)
    (msgs : List Turn)
    (h : (search_similar_dialogues env.embedOutcome env.store env.dbErr k).1 = []) :
    (handle_question env q k msgs).response = noResultsMsg ∧
    (handle_question env q k msgs).sources = [] ∧
    (handle_question env q k msgs).genCalls = 0 ∧
    (handle_question env q k msgs).messages =
      msgs ++ [⟨"user", q, none⟩, ⟨"assistant", noResultsMsg, some []⟩] := by
  refine ⟨?_, ?_, ?_, ?_⟩ <;> simp [handle_question, h]

/-- Witness for C1: a store with no rows yields zero results, and the
orchestrator short-circuits. -/
theorem C1_no_results_short_circuit_witness :
    (handle_question (Env.mk (Except.ok [(1 : ℚ)]) [] none
        (fun _ => Except.ok "réponse")) "q" 3 []).response = noResultsMsg ∧
    (handle_question (Env.mk (Except.ok [(1 : ℚ)]) [] none
        (fun _ => Except.ok "réponse")) "q" 3 []).sources = [] ∧
    (handle_question (Env.mk (Except.ok [(1 : ℚ)]) [] none
        (fun _ => Except.ok "réponse")) "q" 3 []).genCalls = 0 ∧
    (handle_question (Env.mk (Except.ok [(1 : ℚ)]) [] none
        (fun _ => Except.ok "réponse")) "q" 3 []).messages =
      [] ++ [⟨"user", "q", none⟩, ⟨"assistant", noResultsMsg, some []⟩] :=
  C1_no_results_short_circuit (Env.mk (Except.ok [(1 : ℚ)]) [] none
    (fun _ => Except.ok "réponse")) "q" 3 [] rfl

/-- Claim C2 (amended): for every unit-normalized query vector, every store
of unit-normalized embeddings and every positive `top_k`, the search returns
at most `top_k` results sorted by similarity descending, and every returned
similarity lies in `[-1, 1]` (not `[0, 1]`: cosine similarity of unit
vectors can be negative). -/
theorem C2_search_contract (q : List ℚ) (store : List DialogueRecord) (k : Nat)
    (_hk : 0 < k) (hq : sqNorm q = 1)
    (hstore : ∀ r ∈ store, sqNorm r.embedding = 1) :
    (search_similar_dialogues (Except.ok q) store none k).1.length ≤ k ∧
    List.Sorted simGE (search_similar_dialogues (Except.ok q) store none k).1 ∧
    ∀ s ∈ (search_similar_dialogues (Except.ok q) store none k).1,
      -1 ≤ s.similarity ∧ s.similarity ≤ 1 := by
  refine ⟨sqlTopK_length_le store q k, sqlTopK_sorted store q k, ?_⟩
  intro s hs
  obtain ⟨r, hr, rfl⟩ := sqlTopK_mem hs
  have hb := dot_mem_Icc_of_unit hq (hstore r hr)
  simpa [rowOf, similarity_eq_dot] using hb

/-- Witness for C2: a single unit-vector record and a unit query. -/
theorem C2_search_contract_witness :
    (0 < 3 ∧ sqNorm [(1 : ℚ)] = 1 ∧
      ∀ r ∈ [(⟨1, "d1", "Bonjour", [(1 : ℚ)]⟩ : DialogueRecord)],
        sqNorm r.embedding = 1) ∧
    ((search_similar_dialogues (Except.ok [(1 : ℚ)])
        [⟨1, "d1", "Bonjour", [(1 : ℚ)]⟩] none 3).1.length ≤ 3 ∧
      List.Sorted simGE (search_similar_dialogues (Except.ok [(1 : ℚ)])
        [⟨1, "d1", "Bonjour", [(1 : ℚ)]⟩] none 3).1 ∧
      ∀ s ∈ (search_similar_dialogues (Except.ok [(1 : ℚ)])
          [⟨1, "d1", "Bonjour", [(1 : ℚ)]⟩] none 3).1,
        -1 ≤ s.similarity ∧ s.similarity ≤ 1) :=
  ⟨⟨by norm_num, by norm_num [sqNorm, dot], by
      intro r hr
      simp only [List.mem_singleton] at hr
      subst hr
      norm_num [sqNorm, dot]⟩,
    C2_search_contract [(1 : ℚ)] [⟨1, "d1", "Bonjour", [(1 : ℚ)]⟩] 3
      (by norm_num) (by norm_num [sqNorm, dot]) (by
        intro r hr
        simp only [List.mem_singleton] at hr
        subst hr
        norm_num [sqNorm, dot])⟩

/-- Counterexample for C2 as stated: with a unit query `[1]` and a store
holding one unit embedding `[-1]`, the search returns a row whose
similarity is `-1`, which is not in `[0, 1]`. -/
theorem C2_counterexample :
    sqNorm [(1 : ℚ)] = 1 ∧ sqNorm [(-1 : ℚ)] = 1 ∧
    (search_similar_dialogues (Except.ok [(1 : ℚ)])
        [⟨1, "d1", "contenu", [(-1 : ℚ)]⟩] none 3).1.map SearchResult.similarity =
      [(-1 : ℚ)] ∧
    ¬ (0 ≤ (-1 : ℚ) ∧ (-1 : ℚ) ≤ 1) := by
  refine ⟨by norm_num [sqNorm, dot], by norm_num [sqNorm, dot], ?_, by norm_num⟩
  norm_num [search_similar_dialogues, sqlTopK, rowOf, similarity, cosineDistance,
    dot, List.insertionSort, List.orderedInsert]

/-- Claim C3: the context passed to generation is the `content` fields of the
results joined with exactly one blank line between consecutive entries,
preserving result order; for contents `["A","B"]` the context is
`"A\n\nB"`. -/
theorem C3_context_join :
    (∀ r : SearchResult, buildContext [r] = r.content) ∧
    (∀ (r r2 : SearchResult) (rs : List SearchResult),
      buildContext (r :: r2 :: rs) = r.content ++ "\n\n" ++ buildContext (r2 :: rs)) ∧
    buildContext [⟨1, "d1", "A", 1⟩, ⟨2, "d2", "B", 1⟩] = "A\n\nB" ∧
    ∀ (env : Env) (q : String) (k : Nat) (msgs : List Turn),
      (search_similar_dialogues env.embedOutcome env.store env.dbErr k).1 ≠ [] →
      (handle_question env q k msgs).response =
        generate_response q
          (buildContext (search_similar_dialogues env.embedOutcome env.store env.dbErr k).1)
          env.api := by
  refine ⟨fun r => rfl, fun r r2 rs => rfl, rfl, ?_⟩
  intro env q k msgs h
  simp [handle_question, h]

/-- Witness for C3: the golden test, and a one-row store on which the
response is the generation of the joined context. -/
theorem C3_context_join_witness :
    buildContext [⟨1, "d1", "A", 1⟩, ⟨2, "d2", "B", 1⟩] = "A\n\nB" ∧
    (handle_question (Env.mk (Except.ok [(1 : ℚ)])
        [⟨1, "d1", "Bonjour", [(1 : ℚ)]⟩] none (fun _ => Except.ok "ok")) "q" 3 []).response =
      generate_response "q"
        (buildContext (search_similar_dialogues (Except.ok [(1 : ℚ)])
          [⟨1, "d1", "Bonjour", [(1 : ℚ)]⟩] none 3).1)
        (fun _ => Except.ok "ok") :=
  ⟨C3_context_join.2.2.1,
    C3_context_join.2.2.2
      (Env.mk (Except.ok [(1 : ℚ)]) [⟨1, "d1", "Bonjour", [(1 : ℚ)]⟩] none
        (fun _ => Except.ok "ok")) "q" 3 []
      (by norm_num [search_similar_dialogues, sqlTopK, rowOf, similarity,
        cosineDistance, dot, List.insertionSort, List.orderedInsert])⟩

/-- Claim C4: when the provider call fails, `generate_response` does not
raise: it returns the descriptive error string, and the orchestrator uses
that string verbatim as the visible answer (and as the content of the
assistant turn) with no separate error channel. -/
theorem C4_generation_error_is_answer (e : String) :
    (∀ q c : String, generate_response q c (fun _ => Except.error e) = genErrMsg e) ∧
    ∀ (embedOutcome : Except String (List ℚ)) (store : List DialogueRecord)
      (dbErr : Option String) (q : String) (k : Nat) (msgs : List Turn),
      (search_similar_dialogues embedOutcome store dbErr k).1 ≠ [] →
      (handle_question (Env.mk embedOutcome store dbErr (fun _ => Except.error e))
          q k msgs).response = genErrMsg e ∧
      (handle_question (Env.mk embedOutcome store dbErr (fun _ => Except.error e))
          q k msgs).messages =
        msgs ++ [⟨"user", q, none⟩,
          ⟨"assistant", genErrMsg e,
            some (search_similar_dialogues embedOutcome store dbErr k).1⟩] := by
  refine ⟨fun q c => rfl, ?_⟩
  intro embedOutcome store dbErr q k msgs h
  constructor <;> simp [handle_question, generate_response, h]

/-- Witness for C4: a failing provider on a one-row store; the error text is
the visible answer. -/
theorem C4_generation_error_is_answer_witness :
    generate_response "q" "c" (fun _ => Except.error "panne réseau") =
      genErrMsg "panne réseau" ∧
    (handle_question (Env.mk (Except.ok [(1 : ℚ)])
        [⟨1, "d1", "Bonjour", [(1 : ℚ)]⟩] none
        (fun _ => Except.error "panne réseau")) "q" 3 []).response =
      genErrMsg "panne réseau" :=
  ⟨(C4_generation_error_is_answer "panne réseau").1 "q" "c",
    ((C4_generation_error_is_answer "panne réseau").2 (Except.ok [(1 : ℚ)])
      [⟨1, "d1", "Bonjour", [(1 : ℚ)]⟩] none "q" 3 []
      (by norm_num [search_similar_dialogues, sqlTopK, rowOf, similarity,
        cosineDistance, dot, List.insertionSort, List.orderedInsert])).1⟩

/-- Claim C5: when the SQL query against the store fails, the failure does
not propagate (the model is a total function, mirroring the `except` that
swallows it): the error is reported via `st.error`, the search returns an
empty result sequence, and the pipeline continues on the no-results branch
rather than aborting. -/
theorem C5_search_failure_degrades (e : String) (q : List ℚ)
    (store : List DialogueRecord) (api : String → Except String String)
    (qn : String) (k : Nat) (msgs : List Turn) :
    search_similar_dialogues (Except.ok q) store (some e) k =
      ([], [searchErrMsg e]) ∧
    (handle_question (Env.mk (Except.ok q) store (some e) api) qn k msgs).response =
      noResultsMsg ∧
    (handle_question (Env.mk (Except.ok q) store (some e) api) qn k msgs).genCalls = 0 ∧
    (handle_question (Env.mk (Except.ok q) store (some e) api) qn k msgs).sources = [] ∧
    (handle_question (Env.mk (Except.ok q) store (some e) api) qn k msgs).reported =
      [searchErrMsg e] ∧
    (handle_question (Env.mk (Except.ok q) store (some e) api) qn k msgs).messages =
      msgs ++ [⟨"user", qn, none⟩, ⟨"assistant", noResultsMsg, some []⟩] := by
  refine ⟨rfl, ?_, ?_, ?_, ?_, ?_⟩ <;>
    simp [handle_question, search_similar_dialogues]

/-- Claim C6 (amended): when the embedding step fails, the exception is
caught inside `search_similar_dialogues` (whose `try` block also covers
`model.encode`): the error is reported, the search returns an empty result
sequence, and the pipeline continues on the ordinary zero-results branch
(fixed no-results answer, generation skipped, no retry) — there is no
distinct terminal error state. -/
theorem C6_embed_failure_caught (e : String) (store : List DialogueRecord)
    (dbErr : Option String) (api : String → Except String String)
    (qn : String) (k : Nat) (msgs : List Turn) :
    search_similar_dialogues (Except.error e) store dbErr k =
      ([], [searchErrMsg e]) ∧
    (handle_question (Env.mk (Except.error e) store dbErr api) qn k msgs).response =
      noResultsMsg ∧
    (handle_question (Env.mk (Except.error e) store dbErr api) qn k msgs).genCalls = 0 ∧
    (handle_question (Env.mk (Except.error e) store dbErr api) qn k msgs).messages =
      msgs ++ [⟨"user", qn, none⟩, ⟨"assistant", noResultsMsg, some []⟩] := by
  refine ⟨rfl, ?_, ?_, ?_⟩ <;>
    simp [handle_question, search_similar_dialogues]

/-- Counterexample for C6 as stated: an embedding failure over a non-empty
store is handled exactly like an ordinary zero-results query (same answer,
same transcript, same sources, generation skipped) — it is not a terminal
error state distinct from the zero-results outcome. -/
theorem C6_counterexample :
    (handle_question (Env.mk (Except.error "panne du modèle")
          [⟨1, "d1", "Bonjour", [(1 : ℚ)]⟩] none (fun _ => Except.ok "réponse"))
        "q" 3 []).response =
      (handle_question (Env.mk (Except.ok [(1 : ℚ)]) [] none
          (fun _ => Except.ok "réponse")) "q" 3 []).response ∧
    (handle_question (Env.mk (Except.error "panne du modèle")
          [⟨1, "d1", "Bonjour", [(1 : ℚ)]⟩] none (fun _ => Except.ok "réponse"))
        "q" 3 []).messages =
      (handle_question (Env.mk (Except.ok [(1 : ℚ)]) [] none
          (fun _ => Except.ok "réponse")) "q" 3 []).messages ∧
    (handle_question (Env.mk (Except.error "panne du modèle")
          [⟨1, "d1", "Bonjour", [(1 : ℚ)]⟩] none (fun _ => Except.ok "réponse"))
        "q" 3 []).sources =
      (handle_question (Env.mk (Except.ok [(1 : ℚ)]) [] none
          (fun _ => Except.ok "réponse")) "q" 3 []).sources ∧
    (handle_question (Env.mk (Except.error "panne du modèle")
          [⟨1, "d1", "Bonjour", [(1 : ℚ)]⟩] none (fun _ => Except.ok "réponse"))
        "q" 3 []).genCalls = 0 ∧
    (handle_question (Env.mk (Except.error "panne du modèle")
          [⟨1, "d1", "Bonjour", [(1 : ℚ)]⟩] none (fun _ => Except.ok "réponse"))
        "q" 3 []).response = noResultsMsg := by
  refine ⟨?_, ?_, ?_, ?_, ?_⟩ <;>
    simp [handle_question, search_similar_dialogues, sqlTopK]

/-- Claim C7: if `GROQ_API_KEY` is absent, `get_groq_client` reports the
configuration error and returns no client, and `main` returns before the
chat loop, so no query is served whatever the state of the connection. -/
theorem C7_missing_api_key_fatal :
    (get_groq_client none).1 = none ∧
    (get_groq_client none).2 = [apiKeyErrMsg] ∧
    ∀ conn : Option Unit, system_serves conn (get_groq_client none).1 = false := by
  refine ⟨rfl, rfl, ?_⟩
  intro conn
  simp [system_serves, get_groq_client]

/-- Claim C8: clearing the history yields a transcript of length 0 whatever
the prior transcript, and clearing an already-empty transcript leaves it
empty. -/
theorem C8_clear_history (t : List Turn) :
    clear_history t = [] ∧ (clear_history t).length = 0 ∧
    clear_history (clear_history t) = clear_history t ∧
    clear_history ([] : List Turn) = [] :=
  ⟨rfl, rfl, rfl, rfl⟩

/-- Claim C9: displayed source text of length ≤ 300 is shown unchanged;
longer text is shown as its first 300 characters followed by the ellipsis
marker.  (The transformation is a pure function of the input, hence
byte-for-byte reproducible.) -/
theorem C9_truncate_preview (text : List Char) :
    (text.length ≤ 300 → truncate_preview text = text) ∧
    (300 < text.length →
      truncate_preview text = text.take 300 ++ ['.', '.', '.']) := by
  constructor
  · intro h
    simp [truncate_preview, Nat.not_lt.mpr h]
  · intro h
    simp [truncate_preview, h]

/-- Witness for C9: a short text is unchanged and a 301-character text is
truncated to 300 characters plus the ellipsis. -/
theorem C9_truncate_preview_witness :
    ((['a', 'b'] : List Char).length ≤ 300 ∧
      truncate_preview ['a', 'b'] = ['a', 'b']) ∧
    (300 < (List.replicate 301 'z').length ∧
      truncate_preview (List.replicate 301 'z') =
        (List.replicate 301 'z').take 300 ++ ['.', '.', '.']) :=
  ⟨⟨by norm_num, (C9_truncate_preview ['a', 'b']).1 (by norm_num)⟩,
    ⟨by norm_num, (C9_truncate_preview (List.replicate 301 'z')).2 (by norm_num)⟩⟩

/-- Claim C10: every handled question appends exactly one user turn
immediately followed by one assistant turn, on every branch; hence every
transcript reachable from the empty one is a sequence of
user-then-assistant pairs (`wellFormed`: strict alternation beginning with
`user`, `sources` key on assistant turns only) and has even length. -/
theorem C10_transcript_invariant :
    (∀ (env : Env) (q : String) (k : Nat) (msgs : List Turn),
      ∃ resp srcs, (handle_question env q k msgs).messages =
        msgs ++ [⟨"user", q, none⟩, ⟨"assistant", resp, some srcs⟩]) ∧
    ∀ qs : List QueryInput,
      wellFormed (run_session qs) ∧ (run_session qs).length % 2 = 0 := by
  have main : ∀ (qs : List QueryInput) (init : List Turn), wellFormed init →
      wellFormed (List.foldl
        (fun msgs qi => (handle_question qi.env qi.question qi.top_k msgs).messages)
        init qs) := by
    intro qs
    induction qs with
    | nil =>
      intro init h
      simpa using h
    | cons qi rest ih =>
      intro init h
      simp only [List.foldl_cons]
      apply ih
      obtain ⟨resp, srcs, heq⟩ :=
        handle_question_messages qi.env qi.question qi.top_k init
      rw [heq]
      exact wellFormed_append_pair _ _ _ init h
  refine ⟨handle_question_messages, ?_⟩
  intro qs
  have h0 : wellFormed ([] : List Turn) := by
    simp [wellFormed]
  refine ⟨main qs [] h0, wellFormed_length_even _ (main qs [] h0)⟩

end RagApp
